import Mathlib

/-!
Shallow embedding of `src/main.py` (Postprocess-MEP-project).

The handler `automate_function` reads trigger metadata from the automation
context, POSTs a request to the MEP API, and — when the JSON reply carries a
truthy `building_data` field — renders it to an HTML file, reporting success
or failure through the platform context.

External effects (the HTTP call with its JSON decoding, the pandas
rendering `pd.DataFrame(...).to_html()`, the local file write, and the
platform calls `store_file_result` / `mark_run_success`) are modelled by an
`Env` of oracles giving each step's outcome: `Except.error e` means the
Python step raised an exception whose text is `e`.  A run is summarised as a
trace of effect events plus an optional uncaught exception.  Events for the
platform-facing calls (`storeFileResult`, `markRunSuccess`, `markRunFailed`)
record the *invocation* of the call, even when the call itself raises;
`fileWrite` records a completed local write of the full content.
-/

namespace MEPPostprocess

/-- A JSON value, as returned by `requests.post(...).json()`. -/
inductive JValue where
  | null : JValue
  | bool : Bool → JValue
  | num : Int → JValue
  | str : String → JValue
  | arr : List JValue → JValue
  | obj : List (String × JValue) → JValue
  deriving Repr

/-- Python dict lookup `d.get(key)` on a JSON object's field list. -/
def lookupField : List (String × JValue) → String → Option JValue
  | [], _ => none
  | (k, v) :: rest, key => if k = key then some v else lookupField rest key

/-- Python truthiness of a JSON value (`if response.get("building_data"):`):
`None`, `False`, `0`, `""`, `[]` and empty dicts are falsy. -/
def JValue.truthy : JValue → Bool
  | .null => false
  | .bool b => b
  | .num n => n != 0
  | .str s => s != ""
  | .arr xs => !xs.isEmpty
  | .obj fs => !fs.isEmpty

/-- Whether a JSON value is an object (a Python dict). -/
def JValue.isObj : JValue → Bool
  | .obj _ => true
  | _ => false

/-- Truthiness of `d.get(key)`: falsy when the key is absent. -/
def truthyGet (fields : List (String × JValue)) (key : String) : Bool :=
  match lookupField fields key with
  | some v => v.truthy
  | none => false

/-- The trigger payload (`triggers[0].payload` in `main.py`). -/
structure Payload where
  model_id : String
  version_id : String
  deriving Repr, DecidableEq

/-- The platform context data read by the handler
(`automate_context.automation_run_data`). -/
structure AutomationRunData where
  speckle_server_url : String
  project_id : String
  triggers : List Payload
  deriving Repr, DecidableEq

/-- `FunctionInputs` from `main.py`; the three `SecretStr` fields are
modelled by the plain strings `get_secret_value()` returns. -/
structure FunctionInputs where
  username : String
  speckle_token : String
  api_url : String
  api_token : String
  deriving Repr, DecidableEq

/-- Observable effects of one handler run. -/
inductive Event where
  | httpPost : String → List (String × String) → JValue → Event
  | fileWrite : String → String → Event
  | storeFileResult : String → Event
  | markRunSuccess : String → Event
  | markRunFailed : String → Event
  deriving Repr

/-- Oracles fixing the outcome of each external step of one run.
`postResponse` is the decoded JSON reply of the POST, or the text of a
transport-level exception (network failure or `.json()` on a non-JSON
body).  The remaining fields give the outcome of the pandas rendering, the
local file write, `store_file_result`, and `mark_run_success`. -/
structure Env where
  postResponse : Except String JValue
  renderResult : Except String String
  writeResult : Except String Unit
  storeResult : Except String Unit
  successResult : Except String Unit

/-- Outcome of one handler run: the trace of effect events, and the text of
an exception that propagated out of the handler, if any. -/
structure RunResult where
  events : List Event
  uncaught : Option String
  deriving Repr

/-- The request body built at lines 50-56 of `main.py`.  The
`json.loads(json.dumps(data))` round trip at line 85 is the identity on
this value. -/
def requestData (ard : AutomationRunData) (pl : Payload)
    (function_inputs : FunctionInputs) : JValue :=
  .obj [("datafusr_config", .obj
    [("project_name", .str "MEPPostprocessingProject"),
     ("source_url", .str (ard.speckle_server_url ++ "/projects/" ++
        ard.project_id ++ "/models/" ++ pl.model_id ++ "@" ++ pl.version_id)),
     ("speckle_token", .str function_inputs.speckle_token)])]

/-- The request headers built at lines 59-66 of `main.py`. -/
def requestHeaders (function_inputs : FunctionInputs) : List (String × String) :=
  [("content-type", "application/json"),
   ("enable-logging", "False"),
   ("source-application", "RoomBook"),
   ("return-type", "tables"),
   ("username", function_inputs.username),
   ("token", function_inputs.api_token)]

/-- The request URL built at line 79 of `main.py`. -/
def requestUrl (function_inputs : FunctionInputs) : String :=
  function_inputs.api_url ++ "/from_datafusr"

/-- Lines 90-122 of `main.py`: iterate the reply's items (raising if the
reply is not a dict), then branch on the truthiness of `building_data`.
The rendering branch is wrapped in `try/except Exception`, which converts
any raise into `mark_run_failed(f"Automation failed: {e}")`. -/
def handleResponse (env : Env) (response : JValue) : RunResult :=
  match response with
  | .obj fields =>
    if truthyGet fields "building_data" then
      match env.renderResult with
      | .error e => ⟨[.markRunFailed ("Automation failed: " ++ e)], none⟩
      | .ok building_data_html =>
        match env.writeResult with
        | .error e => ⟨[.markRunFailed ("Automation failed: " ++ e)], none⟩
        | .ok _ =>
          match env.storeResult with
          | .error e =>
            ⟨[.fileWrite "building_data.html" building_data_html,
              .storeFileResult "building_data_html",
              .markRunFailed ("Automation failed: " ++ e)], none⟩
          | .ok _ =>
            match env.successResult with
            | .error e =>
              ⟨[.fileWrite "building_data.html" building_data_html,
                .storeFileResult "building_data_html",
                .markRunSuccess "Building data table successfully generated!",
                .markRunFailed ("Automation failed: " ++ e)], none⟩
            | .ok _ =>
              ⟨[.fileWrite "building_data.html" building_data_html,
                .storeFileResult "building_data_html",
                .markRunSuccess "Building data table successfully generated!"], none⟩
    else
      ⟨[.markRunFailed "Automation failed: No building data could be retrieved!"], none⟩
  | _ => ⟨[], some "AttributeError: the response object has no attribute items"⟩

/-- `automate_function` from `main.py`.  Reading `triggers[0]` raises
`IndexError` on an empty list (line 47); the POST attempt is issued once
the request is built (line 85); a transport error propagates uncaught. -/
def automate_function (automate_context : AutomationRunData)
    (function_inputs : FunctionInputs) (env : Env) : RunResult :=
  match automate_context.triggers with
  | [] => ⟨[], some "IndexError: list index out of range"⟩
  | pl :: _ =>
    let data := requestData automate_context pl function_inputs
    let headers := requestHeaders function_inputs
    let url := requestUrl function_inputs
    let postEvent := Event.httpPost url headers data
    match env.postResponse with
    | .error e => ⟨[postEvent], some e⟩
    | .ok response =>
      let r := handleResponse env response
      ⟨postEvent :: r.events, r.uncaught⟩

/-- Recognises the HTTP POST event. -/
def Event.isHttpPost : Event → Bool
  | .httpPost _ _ _ => true
  | _ => false

/-- Recognises an invocation of `mark_run_success`. -/
def Event.isMarkRunSuccess : Event → Bool
  | .markRunSuccess _ => true
  | _ => false

/-- Recognises an invocation of `mark_run_failed`. -/
def Event.isMarkRunFailed : Event → Bool
  | .markRunFailed _ => true
  | _ => false

/-- Recognises a completed local file write. -/
def Event.isFileWrite : Event → Bool
  | .fileWrite _ _ => true
  | _ => false

/-- Recognises an invocation of `store_file_result`. -/
def Event.isStoreFileResult : Event → Bool
  | .storeFileResult _ => true
  | _ => false

/-- How many events of a trace satisfy a predicate. -/
def countEvents (p : Event → Bool) (es : List Event) : Nat :=
  (es.filter p).length

/-- A sample run context: one trigger. -/
def sampleCtx : AutomationRunData :=
  { speckle_server_url := "https://speckle.example"
    project_id := "p123"
    triggers := [{ model_id := "m456", version_id := "v789" }] }

/-- Sample configuration inputs. -/
def sampleInputs : FunctionInputs :=
  { username := "alice"
    speckle_token := "stok"
    api_url := "https://mep.example"
    api_token := "atok" }

/-- An environment in which every external step succeeds and the reply
carries a truthy `building_data`. -/
def envAllOk : Env :=
  { postResponse := .ok (.obj [("building_data", .obj [("col", .arr [.num 1, .num 2])])])
    renderResult := .ok "<table>col</table>"
    writeResult := .ok ()
    storeResult := .ok ()
    successResult := .ok () }

example :
    (automate_function sampleCtx sampleInputs envAllOk).events =
      [Event.httpPost "https://mep.example/from_datafusr"
         (requestHeaders sampleInputs)
         (requestData sampleCtx ⟨"m456", "v789"⟩ sampleInputs),
       Event.fileWrite "building_data.html" "<table>col</table>",
       Event.storeFileResult "building_data_html",
       Event.markRunSuccess "Building data table successfully generated!"] := rfl

/-- An environment in which the POST call itself raises a transport error. -/
def envTransportError : Env :=
  { envAllOk with postResponse := .error "ConnectionError: failed to resolve host" }

/-- An environment whose JSON reply is an object without `building_data`. -/
def envNoData : Env :=
  { envAllOk with postResponse := .ok (.obj [("status", .str "ok")]) }

/-- An environment whose JSON reply parses but is an array, not an object. -/
def envNonObject : Env :=
  { envAllOk with postResponse := .ok (.arr [.num 1, .num 2]) }

/-- An environment in which the pandas rendering step raises. -/
def envRenderFails : Env :=
  { envAllOk with renderResult := .error "ValueError: All arrays must be of the same length" }

/-- An environment in which `store_file_result` raises after the file write. -/
def envStoreFails : Env :=
  { envAllOk with storeResult := .error "FileNotFoundError: building_data_html" }

/-- An environment in which `mark_run_success` itself raises. -/
def envSuccessFails : Env :=
  { envAllOk with successResult := .error "SpeckleException: blob upload failed" }

/-- In every run whose triggers list is nonempty, the trace begins with the
POST attempt carrying the constructed URL, headers and body. -/
theorem automate_function_head (automate_context : AutomationRunData)
    (function_inputs : FunctionInputs) (env : Env) (pl : Payload) (rest : List Payload)
    (h : automate_context.triggers = pl :: rest) :
    (automate_function automate_context function_inputs env).events.head? =
      some (Event.httpPost (requestUrl function_inputs)
        (requestHeaders function_inputs)
        (requestData automate_context pl function_inputs)) := by
  cases hp : env.postResponse with
  | error e => simp [automate_function, h, hp]
  | ok v => simp [automate_function, h, hp]

/-- The trace produced by the response handler contains no POST event. -/
theorem handleResponse_no_post (env : Env) (v : JValue) :
    countEvents Event.isHttpPost (handleResponse env v).events = 0 := by
  obtain ⟨post, render, write, store, success⟩ := env
  cases v <;>
    cases render <;> cases write <;> cases store <;> cases success <;>
      simp [handleResponse, countEvents, Event.isHttpPost] <;>
      split <;> simp [countEvents, Event.isHttpPost]

/-- A run context whose triggers list is empty. -/
def emptyCtx : AutomationRunData :=
  { speckle_server_url := "https://speckle.example"
    project_id := "p123"
    triggers := [] }

/-- C10: if the context's automation run data has an empty triggers list,
the handler raises an unhandled index error when reading `triggers[0]`
before building the request, so no HTTP request is issued, no file is
written, and no outcome is reported (the trace is empty). -/
theorem c10_empty_triggers (automate_context : AutomationRunData)
    (function_inputs : FunctionInputs) (env : Env)
    (h : automate_context.triggers = []) :
    (automate_function automate_context function_inputs env).events = [] ∧
    (automate_function automate_context function_inputs env).uncaught =
      some "IndexError: list index out of range" := by
  simp [automate_function, h]

theorem c10_empty_triggers_witness :
    (automate_function emptyCtx sampleInputs envAllOk).events = [] ∧
    (automate_function emptyCtx sampleInputs envAllOk).uncaught =
      some "IndexError: list index out of range" :=
  c10_empty_triggers emptyCtx sampleInputs envAllOk rfl

/-- C3: if the POST call raises a transport-level error, that exception
propagates out of the handler uncaught, and neither `mark_run_success` nor
`mark_run_failed` is invoked for that run. -/
theorem c3_transport_error_propagates (automate_context : AutomationRunData)
    (function_inputs : FunctionInputs) (env : Env) (pl : Payload)
    (rest : List Payload) (e : String)
    (h : automate_context.triggers = pl :: rest)
    (hp : env.postResponse = .error e) :
    (automate_function automate_context function_inputs env).uncaught = some e ∧
    countEvents Event.isMarkRunSuccess
      (automate_function automate_context function_inputs env).events = 0 ∧
    countEvents Event.isMarkRunFailed
      (automate_function automate_context function_inputs env).events = 0 := by
  simp [automate_function, h, hp, countEvents, Event.isMarkRunSuccess,
    Event.isMarkRunFailed]

theorem c3_transport_error_propagates_witness :
    (automate_function sampleCtx sampleInputs envTransportError).uncaught =
      some "ConnectionError: failed to resolve host" ∧
    countEvents Event.isMarkRunSuccess
      (automate_function sampleCtx sampleInputs envTransportError).events = 0 ∧
    countEvents Event.isMarkRunFailed
      (automate_function sampleCtx sampleInputs envTransportError).events = 0 :=
  c3_transport_error_propagates sampleCtx sampleInputs envTransportError
    ⟨"m456", "v789"⟩ [] "ConnectionError: failed to resolve host" rfl rfl

/-- C4: for every JSON object reply whose `building_data` field is absent
or falsy, the handler invokes `mark_run_failed` with exactly the message
"Automation failed: No building data could be retrieved!", writes no file,
registers no file result, and never invokes `mark_run_success`: the whole
trace is the POST followed by that single failure report. -/
theorem c4_no_building_data (automate_context : AutomationRunData)
    (function_inputs : FunctionInputs) (env : Env) (pl : Payload)
    (rest : List Payload) (fields : List (String × JValue))
    (h : automate_context.triggers = pl :: rest)
    (hp : env.postResponse = .ok (.obj fields))
    (hbd : truthyGet fields "building_data" = false) :
    (automate_function automate_context function_inputs env).events =
      [Event.httpPost (requestUrl function_inputs) (requestHeaders function_inputs)
         (requestData automate_context pl function_inputs),
       Event.markRunFailed "Automation failed: No building data could be retrieved!"] ∧
    (automate_function automate_context function_inputs env).uncaught = none := by
  simp [automate_function, handleResponse, h, hp, hbd]

theorem c4_no_building_data_witness :
    (automate_function sampleCtx sampleInputs envNoData).events =
      [Event.httpPost (requestUrl sampleInputs) (requestHeaders sampleInputs)
         (requestData sampleCtx ⟨"m456", "v789"⟩ sampleInputs),
       Event.markRunFailed "Automation failed: No building data could be retrieved!"] ∧
    (automate_function sampleCtx sampleInputs envNoData).uncaught = none :=
  c4_no_building_data sampleCtx sampleInputs envNoData ⟨"m456", "v789"⟩ []
    [("status", .str "ok")] rfl rfl rfl

/-- C5: if an exception is raised during the rendering branch (dataframe
construction / HTML conversion, the file write, or the file registration)
for a truthy `building_data`, the handler catches it, invokes
`mark_run_failed` with the message "Automation failed: " followed by the
underlying error text, never propagates the exception, and never invokes
`mark_run_success` in that run. -/
theorem c5_render_branch_errors_caught (automate_context : AutomationRunData)
    (function_inputs : FunctionInputs) (env : Env) (pl : Payload)
    (rest : List Payload) (fields : List (String × JValue)) (e : String)
    (h : automate_context.triggers = pl :: rest)
    (hp : env.postResponse = .ok (.obj fields))
    (hbd : truthyGet fields "building_data" = true)
    (he : env.renderResult = .error e ∨
      (env.writeResult = .error e ∧ ∃ html, env.renderResult = .ok html) ∨
      (env.storeResult = .error e ∧ env.writeResult = .ok () ∧
        ∃ html, env.renderResult = .ok html)) :
    Event.markRunFailed ("Automation failed: " ++ e) ∈
      (automate_function automate_context function_inputs env).events ∧
    (automate_function automate_context function_inputs env).uncaught = none ∧
    countEvents Event.isMarkRunSuccess
      (automate_function automate_context function_inputs env).events = 0 := by
  rcases he with hr | ⟨hw, html, hr⟩ | ⟨hs, hw, html, hr⟩
  · simp [automate_function, handleResponse, h, hp, hbd, hr, countEvents,
      Event.isMarkRunSuccess]
  · simp [automate_function, handleResponse, h, hp, hbd, hr, hw, countEvents,
      Event.isMarkRunSuccess]
  · simp [automate_function, handleResponse, h, hp, hbd, hr, hw, hs, countEvents,
      Event.isMarkRunSuccess]

theorem c5_render_branch_errors_caught_witness :
    Event.markRunFailed
        "Automation failed: ValueError: All arrays must be of the same length" ∈
      (automate_function sampleCtx sampleInputs envRenderFails).events ∧
    (automate_function sampleCtx sampleInputs envRenderFails).uncaught = none ∧
    countEvents Event.isMarkRunSuccess
      (automate_function sampleCtx sampleInputs envRenderFails).events = 0 :=
  c5_render_branch_errors_caught sampleCtx sampleInputs envRenderFails
    ⟨"m456", "v789"⟩ [] [("building_data", .obj [("col", .arr [.num 1, .num 2])])]
    "ValueError: All arrays must be of the same length" rfl rfl rfl (Or.inl rfl)

/-- C8: if the API reply parses as JSON but is not a JSON object, the
handler raises an unhandled error while iterating the reply's items, before
inspecting `building_data`: the trace holds only the POST, so no file is
written and neither `mark_run_success` nor `mark_run_failed` is invoked. -/
theorem c8_non_object_reply (automate_context : AutomationRunData)
    (function_inputs : FunctionInputs) (env : Env) (pl : Payload)
    (rest : List Payload) (v : JValue)
    (h : automate_context.triggers = pl :: rest)
    (hp : env.postResponse = .ok v)
    (hv : v.isObj = false) :
    (automate_function automate_context function_inputs env).events =
      [Event.httpPost (requestUrl function_inputs) (requestHeaders function_inputs)
         (requestData automate_context pl function_inputs)] ∧
    (automate_function automate_context function_inputs env).uncaught =
      some "AttributeError: the response object has no attribute items" := by
  cases v with
  | obj fields => simp [JValue.isObj] at hv
  | null => simp [automate_function, handleResponse, h, hp]
  | bool b => simp [automate_function, handleResponse, h, hp]
  | num n => simp [automate_function, handleResponse, h, hp]
  | str s => simp [automate_function, handleResponse, h, hp]
  | arr xs => simp [automate_function, handleResponse, h, hp]

theorem c8_non_object_reply_witness :
    (automate_function sampleCtx sampleInputs envNonObject).events =
      [Event.httpPost (requestUrl sampleInputs) (requestHeaders sampleInputs)
         (requestData sampleCtx ⟨"m456", "v789"⟩ sampleInputs)] ∧
    (automate_function sampleCtx sampleInputs envNonObject).uncaught =
      some "AttributeError: the response object has no attribute items" :=
  c8_non_object_reply sampleCtx sampleInputs envNonObject ⟨"m456", "v789"⟩ []
    (.arr [.num 1, .num 2]) rfl rfl rfl

/-- C9: the rendering branch is not atomic: when `store_file_result` or
`mark_run_success` raises after the file write, `mark_run_failed` is
invoked with that error's text while the already-written
`building_data.html` stays in the trace as the single completed write —
no event removes it. -/
theorem c9_file_persists_after_late_failure (automate_context : AutomationRunData)
    (function_inputs : FunctionInputs) (env : Env) (pl : Payload)
    (rest : List Payload) (fields : List (String × JValue)) (html e : String)
    (h : automate_context.triggers = pl :: rest)
    (hp : env.postResponse = .ok (.obj fields))
    (hbd : truthyGet fields "building_data" = true)
    (hr : env.renderResult = .ok html)
    (hw : env.writeResult = .ok ())
    (hse : env.storeResult = .error e ∨
      (env.storeResult = .ok () ∧ env.successResult = .error e)) :
    Event.fileWrite "building_data.html" html ∈
      (automate_function automate_context function_inputs env).events ∧
    Event.markRunFailed ("Automation failed: " ++ e) ∈
      (automate_function automate_context function_inputs env).events ∧
    (automate_function automate_context function_inputs env).uncaught = none ∧
    countEvents Event.isFileWrite
      (automate_function automate_context function_inputs env).events = 1 := by
  rcases hse with hs | ⟨hs, hs2⟩
  · simp [automate_function, handleResponse, h, hp, hbd, hr, hw, hs, countEvents,
      Event.isFileWrite]
  · simp [automate_function, handleResponse, h, hp, hbd, hr, hw, hs, hs2,
      countEvents, Event.isFileWrite]

theorem c9_file_persists_after_late_failure_witness :
    Event.fileWrite "building_data.html" "<table>col</table>" ∈
      (automate_function sampleCtx sampleInputs envStoreFails).events ∧
    Event.markRunFailed "Automation failed: FileNotFoundError: building_data_html" ∈
      (automate_function sampleCtx sampleInputs envStoreFails).events ∧
    (automate_function sampleCtx sampleInputs envStoreFails).uncaught = none ∧
    countEvents Event.isFileWrite
      (automate_function sampleCtx sampleInputs envStoreFails).events = 1 :=
  c9_file_persists_after_late_failure sampleCtx sampleInputs envStoreFails
    ⟨"m456", "v789"⟩ [] [("building_data", .obj [("col", .arr [.num 1, .num 2])])]
    "<table>col</table>" "FileNotFoundError: building_data_html" rfl rfl rfl rfl rfl
    (Or.inl rfl)

/-- Counting over a cons splits off the head's contribution. -/
theorem countEvents_cons (p : Event → Bool) (x : Event) (t : List Event) :
    countEvents p (x :: t) = (if p x then 1 else 0) + countEvents p t := by
  simp [countEvents, List.filter_cons]
  split <;> simp [Nat.add_comm]

/-- C6: for every context, inputs and environment with a trigger present,
the POSTed request body is the mapping with key datafusr_config holding
the constant project name, the source URL concatenated byte-for-byte from
the server URL, project id, model id and version id, and the unwrapped
speckle token. -/
theorem c6_request_body (automate_context : AutomationRunData)
    (function_inputs : FunctionInputs) (env : Env) (pl : Payload)
    (rest : List Payload)
    (h : automate_context.triggers = pl :: rest) :
    (automate_function automate_context function_inputs env).events.head? =
      some (Event.httpPost (requestUrl function_inputs)
        (requestHeaders function_inputs)
        (JValue.obj [("datafusr_config", JValue.obj
          [("project_name", JValue.str "MEPPostprocessingProject"),
           ("source_url", JValue.str (automate_context.speckle_server_url ++
              "/projects/" ++ automate_context.project_id ++ "/models/" ++
              pl.model_id ++ "@" ++ pl.version_id)),
           ("speckle_token", JValue.str function_inputs.speckle_token)])])) := by
  rw [automate_function_head automate_context function_inputs env pl rest h]
  rfl

theorem c6_request_body_witness :
    (automate_function sampleCtx sampleInputs envAllOk).events.head? =
      some (Event.httpPost (requestUrl sampleInputs) (requestHeaders sampleInputs)
        (JValue.obj [("datafusr_config", JValue.obj
          [("project_name", JValue.str "MEPPostprocessingProject"),
           ("source_url", JValue.str
              "https://speckle.example/projects/p123/models/m456@v789"),
           ("speckle_token", JValue.str "stok")])])) :=
  (c6_request_body sampleCtx sampleInputs envAllOk ⟨"m456", "v789"⟩ [] rfl).trans rfl

/-- C7: every invocation with a trigger present issues exactly one POST, to
exactly the URL formed of the API URL plus "/from_datafusr", with the fixed
content-type, logging flag, source-application and return-type headers plus
the username and API token from the inputs. -/
theorem c7_post_url_headers (automate_context : AutomationRunData)
    (function_inputs : FunctionInputs) (env : Env) (pl : Payload)
    (rest : List Payload)
    (h : automate_context.triggers = pl :: rest) :
    (automate_function automate_context function_inputs env).events.head? =
      some (Event.httpPost (function_inputs.api_url ++ "/from_datafusr")
        [("content-type", "application/json"),
         ("enable-logging", "False"),
         ("source-application", "RoomBook"),
         ("return-type", "tables"),
         ("username", function_inputs.username),
         ("token", function_inputs.api_token)]
        (requestData automate_context pl function_inputs)) ∧
    countEvents Event.isHttpPost
      (automate_function automate_context function_inputs env).events = 1 := by
  refine ⟨automate_function_head automate_context function_inputs env pl rest h, ?_⟩
  cases hp : env.postResponse with
  | error e => simp [automate_function, h, hp, countEvents, Event.isHttpPost]
  | ok v =>
    have hnp := handleResponse_no_post env v
    simp [automate_function, h, hp, countEvents_cons, Event.isHttpPost, hnp]

theorem c7_post_url_headers_witness :
    (automate_function sampleCtx sampleInputs envAllOk).events.head? =
      some (Event.httpPost ("https://mep.example" ++ "/from_datafusr")
        [("content-type", "application/json"),
         ("enable-logging", "False"),
         ("source-application", "RoomBook"),
         ("return-type", "tables"),
         ("username", "alice"),
         ("token", "atok")]
        (requestData sampleCtx ⟨"m456", "v789"⟩ sampleInputs)) ∧
    countEvents Event.isHttpPost
      (automate_function sampleCtx sampleInputs envAllOk).events = 1 :=
  c7_post_url_headers sampleCtx sampleInputs envAllOk ⟨"m456", "v789"⟩ [] rfl

/-- C1 (code bug): on the fully successful path the handler writes the
local file building_data.html, but the name it passes to
`store_file_result` is "building_data_html" — not the name of the file it
wrote, which is never registered. -/
theorem c1_registered_name_differs :
    Event.fileWrite "building_data.html" "<table>col</table>" ∈
      (automate_function sampleCtx sampleInputs envAllOk).events ∧
    Event.storeFileResult "building_data_html" ∈
      (automate_function sampleCtx sampleInputs envAllOk).events ∧
    Event.storeFileResult "building_data.html" ∉
      (automate_function sampleCtx sampleInputs envAllOk).events := by
  refine ⟨?_, ?_, ?_⟩ <;> simp [automate_function, handleResponse, sampleCtx,
    sampleInputs, envAllOk, truthyGet, lookupField, JValue.truthy]

/-- C2 (counterexample): in a run where `mark_run_success` itself raises
after a successful store, the handler invokes `mark_run_success` and then,
from the except handler, also `mark_run_failed` — two terminal reporting
calls in one invocation, refuting the claim that exactly one of them is
invoked per run. -/
theorem c2_counterexample :
    ¬ (countEvents Event.isMarkRunSuccess
         (automate_function sampleCtx sampleInputs envSuccessFails).events +
       countEvents Event.isMarkRunFailed
         (automate_function sampleCtx sampleInputs envSuccessFails).events = 1) := by
  decide

/-- The response handler invokes exactly one terminal reporting call when
the reply is a JSON object and `mark_run_success` does not itself raise. -/
theorem handleResponse_one_report (env : Env) (fields : List (String × JValue))
    (hs : env.successResult = .ok ()) :
    countEvents Event.isMarkRunSuccess (handleResponse env (.obj fields)).events +
    countEvents Event.isMarkRunFailed (handleResponse env (.obj fields)).events = 1 := by
  by_cases hbd : truthyGet fields "building_data"
  · cases hr : env.renderResult with
    | error e => simp [handleResponse, hbd, hr, countEvents,
        Event.isMarkRunSuccess, Event.isMarkRunFailed]
    | ok html =>
      cases hw : env.writeResult with
      | error e => simp [handleResponse, hbd, hr, hw, countEvents,
          Event.isMarkRunSuccess, Event.isMarkRunFailed]
      | ok u =>
        cases hst : env.storeResult with
        | error e => simp [handleResponse, hbd, hr, hw, hst, countEvents,
            Event.isMarkRunSuccess, Event.isMarkRunFailed]
        | ok u2 => simp [handleResponse, hbd, hr, hw, hst, hs, countEvents,
            Event.isMarkRunSuccess, Event.isMarkRunFailed]
  · simp [handleResponse, hbd, countEvents, Event.isMarkRunSuccess,
      Event.isMarkRunFailed]

/-- C2 (amended): provided the triggers list is nonempty, the POST call
returns successfully with a JSON object reply, and `mark_run_success` does
not itself raise, exactly one of `mark_run_success` and `mark_run_failed`
is invoked and exactly one HTTP POST is issued. -/
theorem c2_one_report_one_post (automate_context : AutomationRunData)
    (function_inputs : FunctionInputs) (env : Env) (pl : Payload)
    (rest : List Payload) (fields : List (String × JValue))
    (h : automate_context.triggers = pl :: rest)
    (hp : env.postResponse = .ok (.obj fields))
    (hs : env.successResult = .ok ()) :
    countEvents Event.isMarkRunSuccess
      (automate_function automate_context function_inputs env).events +
    countEvents Event.isMarkRunFailed
      (automate_function automate_context function_inputs env).events = 1 ∧
    countEvents Event.isHttpPost
      (automate_function automate_context function_inputs env).events = 1 := by
  have h1 := handleResponse_one_report env fields hs
  have h2 := handleResponse_no_post env (.obj fields)
  refine ⟨?_, ?_⟩ <;>
    simp [automate_function, h, hp, countEvents_cons, Event.isMarkRunSuccess,
      Event.isMarkRunFailed, Event.isHttpPost] <;>
    omega

theorem c2_one_report_one_post_witness :
    countEvents Event.isMarkRunSuccess
      (automate_function sampleCtx sampleInputs envAllOk).events +
    countEvents Event.isMarkRunFailed
      (automate_function sampleCtx sampleInputs envAllOk).events = 1 ∧
    countEvents Event.isHttpPost
      (automate_function sampleCtx sampleInputs envAllOk).events = 1 :=
  c2_one_report_one_post sampleCtx sampleInputs envAllOk ⟨"m456", "v789"⟩ []
    [("building_data", .obj [("col", .arr [.num 1, .num 2])])] rfl rfl rfl

end MEPPostprocess
